import Mathlib

/-!
Verification of the opencode-dog webhook dispatch core.

This file gives a shallow embedding, in Lean 4, of the parts of the
repository that the checked properties talk about:

* the keyword matcher (`internal/analyzer/analyzer.go`, `matchKeyword`),
* the Slack signature check (`internal/provider/slack.go`,
  `verifySlackSignature`) together with a concrete byte-level
  HMAC-SHA256 implementation,
* the three webhook handlers built by `BuildHandler` for the GitLab,
  Slack and Telegram providers,
* the opencode HTTP client (`internal/analyzer/opencode.go`) and the
  session round-trip `runOpencodeHTTP`,
* the dispatcher `Analyzer.HandleMessage`, modelled as a function from
  an environment of collaborator answers to the trace of persistence
  and reply events it emits.

Effectful collaborators (database, HTTP, registry) appear as explicit
environment records; each handler is a pure function from a request
model to a response model (status code, optional challenge echo, list
of dispatched messages). The file is organised as a block of
definitions translated from the Go source followed by a block of
theorems about them.
-/

namespace OpencodeDog

/-! ## Byte strings -/

/-- Byte strings: Go `[]byte` values, one `Nat` (< 256 for real inputs)
per byte. -/
abbrev Bytes := List Nat

/-- The bytes of an ASCII string literal (Go `[]byte(s)` for ASCII `s`). -/
def strBytes (s : String) : Bytes := s.data.map Char.toNat

/-! ## Keyword matcher (`analyzer.go`, `matchKeyword`) -/

/-- `db.TriggerKeyword` (fields relevant to matching). -/
structure TriggerKeyword where
  id : String := ""
  projectID : String := ""
  mode : String
  keyword : String
deriving Repr, DecidableEq

/-- Go `strings.ToLower`, restricted to per-character lowering
(faithful for ASCII input). -/
def goToLower (s : String) : String := ⟨s.data.map Char.toLower⟩

/-- Substring search on character lists: does `pat` occur contiguously
inside the second argument? Models Go `strings.Contains`. -/
def containsSub (pat : List Char) : List Char → Bool
  | [] => pat.isEmpty
  | c :: rest => pat.isPrefixOf (c :: rest) || containsSub pat rest

/-- Go `strings.Contains s pat`. -/
def stringContains (s pat : String) : Bool := containsSub pat.data s.data

/-- The loop body of `matchKeyword`: walk the keyword list in order,
returning the first `(Keyword, Mode)` whose lower-cased keyword occurs
in the (already lower-cased) text. -/
def matchKeywordLoop (lower : String) : List TriggerKeyword → String × String
  | [] => ("", "")
  | kw :: rest =>
    if stringContains lower (goToLower kw.keyword) then (kw.keyword, kw.mode)
    else matchKeywordLoop lower rest

/-- `matchKeyword` from `internal/analyzer/analyzer.go`: lower-case the
text once, then scan the keyword list in order. -/
def matchKeyword (text : String) (keywords : List TriggerKeyword) : String × String :=
  matchKeywordLoop (goToLower text) keywords

/-! ## SHA-256 and HMAC-SHA256 (Go `crypto/sha256`, `crypto/hmac`)

A concrete byte-level implementation, validated in the theorems block
against the FIPS 180-4 and RFC 4231 test vectors. `Nat` arithmetic with
explicit `% 2^32` stands in for 32-bit machine words. -/

/-- 32-bit modular addition. -/
def add32 (a b : Nat) : Nat := (a + b) % 4294967296

/-- 32-bit right rotation. -/
def rotr32 (n x : Nat) : Nat := ((x >>> n) ||| (x <<< (32 - n))) % 4294967296

def bigSigma0 (x : Nat) : Nat := (rotr32 2 x) ^^^ (rotr32 13 x) ^^^ (rotr32 22 x)

def bigSigma1 (x : Nat) : Nat := (rotr32 6 x) ^^^ (rotr32 11 x) ^^^ (rotr32 25 x)

def smallSigma0 (x : Nat) : Nat := (rotr32 7 x) ^^^ (rotr32 18 x) ^^^ (x >>> 3)

def smallSigma1 (x : Nat) : Nat := (rotr32 17 x) ^^^ (rotr32 19 x) ^^^ (x >>> 10)

def ch32 (x y z : Nat) : Nat := (x &&& y) ^^^ ((x ^^^ 4294967295) &&& z)

def maj32 (x y z : Nat) : Nat := (x &&& y) ^^^ (x &&& z) ^^^ (y &&& z)

/-- The 64 SHA-256 round constants. -/
def shaK : List Nat :=
  [1116352408, 1899447441, 3049323471, 3921009573, 961987163,
   1508970993, 2453635748, 2870763221, 3624381080, 310598401,
   607225278, 1426881987, 1925078388, 2162078206, 2614888103,
   3248222580, 3835390401, 4022224774, 264347078, 604807628,
   770255983, 1249150122, 1555081692, 1996064986, 2554220882,
   2821834349, 2952996808, 3210313671, 3336571891, 3584528711,
   113926993, 338241895, 666307205, 773529912, 1294757372,
   1396182291, 1695183700, 1986661051, 2177026350, 2456956037,
   2730485921, 2820302411, 3259730800, 3345764771, 3516065817,
   3600352804, 4094571909, 275423344, 430227734, 506948616,
   659060556, 883997877, 958139571, 1322822218, 1537002063,
   1747873779, 1955562222, 2024104815, 2227730452, 2361852424,
   2428436474, 2756734187, 3204031479, 3329325298]

/-- The SHA-256 initial hash value. -/
def shaH0 : List Nat :=
  [1779033703, 3144134277, 1013904242, 2773480762, 1359893119,
   2600822924, 528734635, 1541459225]

/-- Big-endian byte rendering of `n` in `numBytes` bytes. -/
def natToBytesBE (numBytes n : Nat) : Bytes :=
  (List.range numBytes).map (fun i => (n >>> (8 * (numBytes - 1 - i))) % 256)

/-- SHA-256 message padding: `0x80`, zeros to 56 mod 64, then the
64-bit big-endian bit length. -/
def padMessage (msg : Bytes) : Bytes :=
  let len := msg.length
  let zeros := (120 - (len + 1) % 64) % 64
  msg ++ [128] ++ List.replicate zeros 0 ++ natToBytesBE 8 (8 * len)

/-- Group bytes into big-endian 32-bit words. -/
def bytesToWordsBE : Bytes → List Nat
  | a :: b :: c :: d :: rest => ((a <<< 24) ||| (b <<< 16) ||| (c <<< 8) ||| d) :: bytesToWordsBE rest
  | _ => []

/-- Split into 64-byte blocks (fuel-based so the kernel can reduce it). -/
def chunk64Fuel : Nat → Bytes → List Bytes
  | 0, _ => []
  | _ + 1, [] => []
  | fuel + 1, l => l.take 64 :: chunk64Fuel fuel (l.drop 64)

def chunk64 (l : Bytes) : List Bytes := chunk64Fuel l.length l

/-- One message-schedule extension step, over the reversed schedule
(most recent word first). -/
def scheduleStep (wrev : List Nat) : Nat :=
  add32 (add32 (smallSigma1 (wrev.getD 1 0)) (wrev.getD 6 0))
    (add32 (smallSigma0 (wrev.getD 14 0)) (wrev.getD 15 0))

def extendSchedule : Nat → List Nat → List Nat
  | 0, wrev => wrev
  | n + 1, wrev => extendSchedule n (scheduleStep wrev :: wrev)

/-- The 64-word message schedule of one block. -/
def schedule (block : Bytes) : List Nat :=
  (extendSchedule 48 (bytesToWordsBE block).reverse).reverse

/-- The eight SHA-256 working variables. -/
structure ShaState where
  a : Nat
  b : Nat
  c : Nat
  d : Nat
  e : Nat
  f : Nat
  g : Nat
  hh : Nat

/-- One SHA-256 compression round, consuming a (round constant,
schedule word) pair. -/
def compressRound (st : ShaState) (kw : Nat × Nat) : ShaState :=
  let t1 := add32 st.hh (add32 (bigSigma1 st.e) (add32 (ch32 st.e st.f st.g) (add32 kw.1 kw.2)))
  let t2 := add32 (bigSigma0 st.a) (maj32 st.a st.b st.c)
  ⟨add32 t1 t2, st.a, st.b, st.c, add32 st.d t1, st.e, st.f, st.g⟩

/-- Compress one 64-byte block into the running hash value. -/
def compressBlock (hs : List Nat) (block : Bytes) : List Nat :=
  let ws := schedule block
  let st0 : ShaState :=
    ⟨hs.getD 0 0, hs.getD 1 0, hs.getD 2 0, hs.getD 3 0,
     hs.getD 4 0, hs.getD 5 0, hs.getD 6 0, hs.getD 7 0⟩
  let stf := (shaK.zip ws).foldl compressRound st0
  [add32 (hs.getD 0 0) stf.a, add32 (hs.getD 1 0) stf.b, add32 (hs.getD 2 0) stf.c,
   add32 (hs.getD 3 0) stf.d, add32 (hs.getD 4 0) stf.e, add32 (hs.getD 5 0) stf.f,
   add32 (hs.getD 6 0) stf.g, add32 (hs.getD 7 0) stf.hh]

/-- SHA-256 of a byte string. -/
def sha256 (msg : Bytes) : Bytes :=
  ((chunk64 (padMessage msg)).foldl compressBlock shaH0).flatMap (natToBytesBE 4)

/-- HMAC-SHA256 (RFC 2104): hash over-long keys, zero-pad to the
64-byte block size, then the nested ipad/opad hashes. -/
def hmacSHA256 (key msg : Bytes) : Bytes :=
  let key1 := if key.length > 64 then sha256 key else key
  let key0 := key1 ++ List.replicate (64 - key1.length) 0
  let ipadKey := key0.map (fun b => b ^^^ 54)
  let opadKey := key0.map (fun b => b ^^^ 92)
  sha256 (opadKey ++ sha256 (ipadKey ++ msg))

/-- Lowercase hex digit of a nibble, as a byte. -/
def hexDigit (n : Nat) : Nat := if n < 10 then 48 + n else 87 + n

/-- Go `hex.EncodeToString`, as a byte string (lowercase). -/
def hexEncode (bs : Bytes) : Bytes :=
  bs.flatMap (fun b => [hexDigit (b / 16), hexDigit (b % 16)])

/-! ## Slack signature verification (`slack.go`, `verifySlackSignature`) -/

/-- The signature base string `v0:{timestamp}:{body}`. -/
def slackBaseString (timestamp body : Bytes) : Bytes :=
  strBytes "v0:" ++ timestamp ++ strBytes ":" ++ body

/-- The `expected` value computed by `verifySlackSignature`:
`"v0=" + hex(HMAC-SHA256(signingSecret, baseString))`. -/
def computeSlackSignature (signingSecret timestamp body : Bytes) : Bytes :=
  strBytes "v0=" ++ hexEncode (hmacSHA256 signingSecret (slackBaseString timestamp body))

/-- `verifySlackSignature` from `internal/provider/slack.go`: reject
outright when the timestamp or signature header is empty, otherwise
compare (via `hmac.Equal`) the recomputed signature with the supplied
one. -/
def verifySlackSignature (timestamp sig body signingSecret : Bytes) : Bool :=
  if timestamp.isEmpty || sig.isEmpty then false
  else computeSlackSignature signingSecret timestamp body == sig

/-! ## Provider request and response models

Each `BuildHandler` closure becomes a pure function from a request
model to a response model. A request carries the HTTP method, the
headers the handler reads, the result of reading the body
(`none` = read error) and, as an oracle for `json.Unmarshal` /
`gogitlab.ParseWebhook`, the decoded payload (`none` = malformed).
A response carries the written status code, the echoed challenge (for
the Slack `url_verification` answer) and the list of messages handed to
`onMessage` (dispatched in a goroutine; the list is the record of those
invocations). -/

/-- A value of the free-form provider config map. Go's comma-ok string
assertion `cfg[k].(string)` yields `""` for a missing or non-string
entry. -/
inductive ConfigVal
  | str (s : String)
  | other
deriving Repr, DecidableEq

/-- The provider config map, and `cfg[k].(string)` with comma-ok
defaulting. -/
def getCfgString (cfg : List (String × ConfigVal)) (k : String) : String :=
  match cfg.lookup k with
  | some (.str s) => s
  | _ => ""

/-- The channel-specific reply context (`ReplyMeta any` in Go), as a
tagged union. -/
inductive ReplyMeta
  | slack (channel threadTS : String)
  | gitlab (projectID issueIID : Int)
  | telegram (chatID : Int) (messageID : Int)
deriving Repr, DecidableEq

/-- `provider.IncomingMessage`. -/
structure IncomingMessage where
  provider : String
  providerCfgID : String
  projectID : String := ""
  externalRef : String
  title : String
  body : String
  author : String
  triggerMode : String := ""
  triggerKeyword : String := ""
  replyMeta : ReplyMeta
deriving Repr, DecidableEq

/-- What a handler writes back: status, optional challenge echo, and
the `onMessage` invocations it spawned. -/
structure HandlerResponse where
  status : Nat
  challenge : Option String := none
  messages : List IncomingMessage := []
deriving Repr, DecidableEq

/-! ## Slack handler (`slack.go`, `SlackProvider.BuildHandler`) -/

/-- The inner `event` object of `slackEvent`. -/
structure SlackInnerEvent where
  type : String
  text : String
  user : String
  channel : String
  ts : String
  threadTS : String
deriving Repr, DecidableEq

/-- `slackEvent`: the decoded Slack payload. -/
structure SlackEvent where
  token : String := ""
  challenge : String
  type : String
  event : SlackInnerEvent
deriving Repr, DecidableEq

/-- A request as seen by the Slack handler. -/
structure SlackRequest where
  method : String
  timestampHeader : Bytes
  signatureHeader : Bytes
  body : Option Bytes
  parsed : Option SlackEvent
deriving Repr, DecidableEq

/-- The handler returned by `SlackProvider.BuildHandler`. -/
def slackBuildHandler (providerCfgID : String) (cfg : List (String × ConfigVal))
    (req : SlackRequest) : HandlerResponse :=
  let signingSecret := getCfgString cfg "signing_secret"
  if req.method ≠ "POST" then ⟨405, none, []⟩
  else
    match req.body with
    | none => ⟨400, none, []⟩
    | some body =>
      if signingSecret ≠ "" ∧
          verifySlackSignature req.timestampHeader req.signatureHeader body
            (strBytes signingSecret) = false then
        ⟨403, none, []⟩
      else
        match req.parsed with
        | none => ⟨400, none, []⟩
        | some evt =>
          if evt.type = "url_verification" then ⟨200, some evt.challenge, []⟩
          else if evt.type ≠ "event_callback" then ⟨200, none, []⟩
          else if evt.event.type ≠ "message" ∧ evt.event.type ≠ "app_mention" then
            ⟨200, none, []⟩
          else if evt.event.user = "" then ⟨200, none, []⟩
          else
            let threadTS := if evt.event.threadTS = "" then evt.event.ts else evt.event.threadTS
            ⟨200, none,
             [{ provider := "slack", providerCfgID := providerCfgID,
                externalRef := "slack://" ++ evt.event.channel ++ "/" ++ evt.event.ts,
                title := "Slack message in #" ++ evt.event.channel,
                body := evt.event.text, author := evt.event.user,
                replyMeta := .slack evt.event.channel threadTS }]⟩

/-! ## Telegram handler (`telegram.go`, `TelegramProvider.BuildHandler`) -/

/-- The non-null `message` object of a `telegramUpdate`. -/
structure TelegramMessageModel where
  messageID : Int
  fromID : Int := 0
  fromUsername : String
  chatID : Int
  chatTitle : String
  chatType : String := ""
  text : String
deriving Repr, DecidableEq

/-- `telegramUpdate`: the decoded Telegram payload. -/
structure TelegramUpdate where
  updateID : Int := 0
  message : Option TelegramMessageModel
deriving Repr, DecidableEq

/-- A request as seen by the Telegram handler. -/
structure TelegramRequest where
  method : String
  secretTokenHeader : String
  body : Option Bytes
  parsed : Option TelegramUpdate
deriving Repr, DecidableEq

/-- The handler returned by `TelegramProvider.BuildHandler`. -/
def telegramBuildHandler (providerCfgID secret : String) (req : TelegramRequest) :
    HandlerResponse :=
  if req.method ≠ "POST" then ⟨405, none, []⟩
  else if secret ≠ "" ∧ req.secretTokenHeader ≠ secret then ⟨403, none, []⟩
  else
    match req.body with
    | none => ⟨400, none, []⟩
    | some _ =>
      match req.parsed with
      | none => ⟨400, none, []⟩
      | some update =>
        match update.message with
        | none => ⟨200, none, []⟩
        | some m =>
          if m.text = "" then ⟨200, none, []⟩
          else
            let chatTitle := if m.chatTitle = "" then "Chat " ++ toString m.chatID
              else m.chatTitle
            ⟨200, none,
             [{ provider := "telegram", providerCfgID := providerCfgID,
                externalRef := "tg://chat/" ++ toString m.chatID ++ "/msg/"
                  ++ toString m.messageID,
                title := chatTitle, body := m.text, author := m.fromUsername,
                replyMeta := .telegram m.chatID m.messageID }]⟩

/-! ## GitLab handler (`gitlab.go`, `GitLabProvider.BuildHandler`) -/

/-- The fields of `gogitlab.IssueCommentEvent` the handler reads. -/
structure IssueCommentEvent where
  system : Bool
  note : String
  url : String
  projectID : Int
  issueIID : Int
  issueTitle : String
  projectWebURL : String
  username : String
deriving Repr, DecidableEq

/-- The outcome of `gogitlab.ParseWebhook` followed by the
`*IssueCommentEvent` type assertion. -/
inductive GitLabEvent
  | issueComment (e : IssueCommentEvent)
  | otherEvent
deriving Repr, DecidableEq

/-- A request as seen by the GitLab handler. `parsed = none` means
`ParseWebhook` failed. -/
structure GitLabRequest where
  method : String
  tokenHeader : String
  eventTypeHeader : String
  body : Option Bytes
  parsed : Option GitLabEvent
deriving Repr, DecidableEq

/-- The handler returned by `GitLabProvider.BuildHandler`.
`"Note Hook"` / `"Confidential Note Hook"` are
`gogitlab.EventTypeNote` / `EventConfidentialNote`. -/
def gitlabBuildHandler (providerCfgID secret : String) (req : GitLabRequest) :
    HandlerResponse :=
  if req.method ≠ "POST" then ⟨405, none, []⟩
  else if req.tokenHeader ≠ secret then ⟨403, none, []⟩
  else if req.eventTypeHeader ≠ "Note Hook" ∧ req.eventTypeHeader ≠ "Confidential Note Hook" then
    ⟨200, none, []⟩
  else
    match req.body with
    | none => ⟨400, none, []⟩
    | some payload =>
      if payload.isEmpty then ⟨400, none, []⟩
      else
        match req.parsed with
        | none => ⟨422, none, []⟩
        | some .otherEvent => ⟨200, none, []⟩
        | some (.issueComment e) =>
          if e.system then ⟨200, none, []⟩
          else
            let webURL := if e.url ≠ "" then e.url
              else e.projectWebURL ++ "/-/issues/" ++ toString e.issueIID
            ⟨200, none,
             [{ provider := "gitlab", providerCfgID := providerCfgID,
                externalRef := webURL, title := e.issueTitle, body := e.note,
                author := e.username,
                replyMeta := .gitlab e.projectID e.issueIID }]⟩

/-! ## Opencode client (`opencode.go`) -/

/-- `Session`: the decoded create-session response. -/
structure Session where
  id : String
  title : String
deriving Repr, DecidableEq

/-- `MessagePart`. -/
structure MessagePart where
  type : String
  text : String
deriving Repr, DecidableEq

/-- The structured error object inside `MessageResponse.Info`. -/
structure ErrorInfo where
  name : String
  message : String
deriving Repr, DecidableEq

/-- `MessageResponse.Info`. -/
structure MessageInfo where
  id : String := ""
  role : String := ""
  content : String := ""
  error : Option ErrorInfo := none
deriving Repr, DecidableEq

/-- `MessageResponse`: the decoded send-message response. -/
structure MessageResponse where
  info : MessageInfo
  parts : List MessagePart
deriving Repr, DecidableEq

/-- The `result += part.Text` loop of `SendMessage`. -/
def concatTextParts (parts : List MessagePart) : String :=
  parts.foldl (fun result part => if part.type = "text" then result ++ part.text else result) ""

/-- The response handling of `OpencodeClient.SendMessage`
(`opencode.go` lines 126-152): non-200 status fails; an undecodable
body fails; a structured error object inside a 200 envelope fails;
otherwise the text parts are concatenated and an empty concatenation
fails. `decoded = none` models a `json.Decoder.Decode` error. -/
def sendMessageResult (status : Nat) (decoded : Option MessageResponse) :
    Except String String :=
  if status ≠ 200 then .error ("send message failed: status " ++ toString status)
  else
    match decoded with
    | none => .error "decode response"
    | some msgResp =>
      match msgResp.info.error with
      | some e => .error ("opencode error: " ++ e.name ++ ": " ++ e.message)
      | none =>
        let result := concatTextParts msgResp.parts
        if result = "" then .error "opencode returned empty response"
        else .ok result

/-- Specification-side concatenation: the list of texts of the
text-typed parts, joined in order. -/
def joinList : List String → String
  | [] => ""
  | s :: rest => s ++ joinList rest

/-! ## Session round-trip (`analyzer.go`, `Analyzer.runOpencodeHTTP`) -/

/-- Which Go context a client call is made on: the caller's context, or
a fresh `context.WithTimeout(context.Background(), n seconds)`. -/
inductive CtxKind
  | caller
  | backgroundTimeout (seconds : Nat)
deriving Repr, DecidableEq

/-- One call on the `OpencodeClient`. -/
inductive ClientCall
  | createSession (ctx : CtxKind) (title : String)
  | sendMessage (ctx : CtxKind) (sessionID prompt : String)
  | deleteSession (ctx : CtxKind) (sessionID : String)
deriving Repr, DecidableEq

/-- The answers the remote opencode service gives to the three client
operations during one round-trip. -/
structure OpencodeEnv where
  createResult : Except String Session
  sendResult : Except String String
  deleteResult : Except String Unit

/-- `Analyzer.runOpencodeHTTP`: create a session; on success, defer an
unconditional `DeleteSession` on a fresh 10-second background context;
send the prompt; return its result. The deferred cleanup runs after
`SendMessage` returns, whether it succeeded or failed, and its own
error is only logged. -/
def runOpencodeHTTP (env : OpencodeEnv) (title prompt : String) :
    Except String String × List ClientCall :=
  match env.createResult with
  | .error e => (.error ("create session: " ++ e), [.createSession .caller title])
  | .ok session =>
    let calls := [.createSession .caller title,
                  .sendMessage .caller session.id prompt,
                  .deleteSession (.backgroundTimeout 10) session.id]
    match env.sendResult with
    | .error e => (.error ("send message: " ++ e), calls)
    | .ok result => (.ok result, calls)

/-- Is a call a `DeleteSession`? -/
def isDeleteCall : ClientCall → Bool
  | .deleteSession _ _ => true
  | _ => false

/-! ## Dispatcher (`analyzer.go`, `Analyzer.HandleMessage`)

`HandleMessage` is modelled as a function from an environment of
collaborator answers (database lookups, task creation, registry lookup,
settings, the analysis result) to the list of persistence and reply
events it performs, in order. -/

/-- `db.TaskStatus`. -/
inductive TaskStatus
  | pending
  | processing
  | completed
  | failed
  | cancelled
deriving Repr, DecidableEq

/-- The fields of `db.Task` that `HandleMessage` fills in before
`CreateTask`. -/
structure Task where
  projectID : Option String
  providerConfigID : Option String
  providerType : String
  triggerMode : String
  triggerKeyword : String
  externalRef : String
  title : String
  messageBody : String
  author : String
deriving Repr, DecidableEq

/-- `ptrStr` from `analyzer.go`: `nil` for the empty string. -/
def ptrStr (s : String) : Option String := if s = "" then none else some s

/-- The provider config row, as far as the dispatcher reads it. -/
structure ProviderConfigModel where
  id : String := ""
  projectID : String := ""
  providerType : String := ""
  config : List (String × ConfigVal) := []

/-- One observable effect of `HandleMessage`, in program order:
`CreateTask` (the row is inserted with the schema default status
`pending`), `UpdateTaskStatus`, or `SendReply` with a template (already
resolved through settings) and its format arguments. -/
inductive DispatchEvent
  | taskCreated (id : String) (task : Task)
  | updateStatus (id : String) (status : TaskStatus) (result errMsg : Option String)
  | sendReply (tpl : String) (args : List String)
deriving Repr, DecidableEq

/-- The collaborator answers one `HandleMessage` run observes.
`none` models the corresponding call returning an error. -/
structure AnalyzerEnv where
  providerConfig : Option ProviderConfigModel
  keywords : Option (List TriggerKeyword)
  createTaskID : Option String
  registryHas : Bool
  settings : String → Option String
  analyzeResult : Except String String

/-- `DB.GetSettingString`: the stored override or the fallback. -/
def getSettingString (env : AnalyzerEnv) (key fallback : String) : String :=
  (env.settings key).getD fallback

/-- `Analyzer.HandleMessage` from `internal/analyzer/analyzer.go`. -/
def handleMessage (env : AnalyzerEnv) (msg : IncomingMessage) : List DispatchEvent :=
  match env.providerConfig with
  | none => []
  | some _pcfg =>
    match env.keywords with
    | none => []
    | some keywords =>
      let matched := matchKeyword msg.body keywords
      if matched.1 = "" then []
      else
        let task : Task :=
          { projectID := ptrStr msg.projectID,
            providerConfigID := ptrStr msg.providerCfgID,
            providerType := msg.provider,
            triggerMode := matched.2,
            triggerKeyword := matched.1,
            externalRef := msg.externalRef,
            title := msg.title,
            messageBody := msg.body,
            author := msg.author }
        match env.createTaskID with
        | none => []
        | some taskID =>
          if env.registryHas = false then [.taskCreated taskID task]
          else
            let ackTpl := getSettingString env "analyzer_ack_template"
              "🔍 **OpenCode** received your request (%s mode).\n> Keyword: `%s` | Author: %s\n\n_Analyzing..._"
            let pre : List DispatchEvent :=
              [.taskCreated taskID task,
               .sendReply ackTpl [matched.2, matched.1, msg.author],
               .updateStatus taskID .processing none none]
            match env.analyzeResult with
            | .error e =>
              pre ++
                [.updateStatus taskID .failed none (some e),
                 .sendReply (getSettingString env "analyzer_error_template"
                   "⚠️ **OpenCode** error:\n```\n%s\n```") [e]]
            | .ok result =>
              pre ++
                [.updateStatus taskID .completed (some result) none,
                 .sendReply (getSettingString env "analyzer_result_template"
                   "## 🤖 OpenCode Analysis\n\n%s\n\n---\n_%s mode | triggered by %s_")
                   [result, matched.2, msg.author]]

/-- The status history of the task touched by a run: `pending` at
creation (the schema default), then each `UpdateTaskStatus` value. -/
def taskStatusSeq (events : List DispatchEvent) : List TaskStatus :=
  events.filterMap fun e =>
    match e with
    | .taskCreated _ _ => some .pending
    | .updateStatus _ s _ _ => some s
    | .sendReply _ _ => none

/-- Did the run create a task? -/
def isTaskCreated : DispatchEvent → Bool
  | .taskCreated _ _ => true
  | _ => false


/-- A dispatcher environment whose registry lookup fails (provider not
registered), with everything else succeeding. -/
def stuckEnv : AnalyzerEnv :=
  { providerConfig := some {},
    keywords := some [{ mode := "ask", keyword := "@opencode" }],
    createTaskID := some "task-1",
    registryHas := false,
    settings := fun _ => none,
    analyzeResult := .ok "result" }

/-- A matching incoming message for `stuckEnv`. -/
def stuckMsg : IncomingMessage :=
  { provider := "gitlab", providerCfgID := "cfg-1", externalRef := "",
    title := "T", body := "please @opencode help", author := "alice",
    replyMeta := .gitlab 1 2 }


end OpencodeDog

namespace OpencodeDog

/-! ## Theorems -/

example : matchKeyword "Hey @OpenCode please review"
    [⟨"", "", "ask", "@opencode"⟩] = ("@opencode", "ask") := by decide

example : matchKeyword "nothing here" [⟨"", "", "ask", "@opencode"⟩] = ("", "") := by
  decide

/-- `containsSub` decides the contiguous-sublist (infix) relation. -/
theorem containsSub_iff (pat : List Char) :
    ∀ s : List Char, containsSub pat s = true ↔ pat <:+: s := by
  intro s
  induction s with
  | nil =>
    simp [containsSub, List.isEmpty_iff, List.infix_nil]
  | cons c rest ih =>
    simp only [containsSub, Bool.or_eq_true, List.isPrefixOf_iff_prefix, ih]
    constructor
    · rintro (h | h)
      · exact h.isInfix
      · exact List.infix_cons h
    · intro h
      rcases List.infix_cons_iff.mp h with h | h
      · exact Or.inl h
      · exact Or.inr h

/-- Go `strings.Contains` (as embedded) agrees with the infix relation
on the underlying character lists. -/
theorem stringContains_eq_decide (s pat : String) :
    stringContains s pat = decide (pat.data <:+: s.data) := by
  rw [Bool.eq_iff_iff, decide_eq_true_eq]
  exact containsSub_iff pat.data s.data

/-- C2: for every message text and ordered keyword list, `matchKeyword`
lower-cases the text and returns the first `(keyword, mode)` pair whose
lower-cased keyword is a contiguous substring of the lower-cased text;
when the list is empty or nothing matches it returns the empty keyword
and empty mode. -/
theorem matchKeyword_first_substring_match (text : String)
    (keywords : List TriggerKeyword) :
    matchKeyword text keywords =
      match keywords.find?
          (fun kw => decide ((goToLower kw.keyword).data <:+: (goToLower text).data)) with
      | some kw => (kw.keyword, kw.mode)
      | none => ("", "") := by
  unfold matchKeyword
  induction keywords with
  | nil => rfl
  | cons kw rest ih =>
    simp only [matchKeywordLoop, List.find?, stringContains_eq_decide]
    cases h : decide ((goToLower kw.keyword).data <:+: (goToLower text).data) with
    | false => simpa [h] using ih
    | true => simp [h]

set_option maxRecDepth 10000 in
example : sha256 [] =
    [0xe3,0xb0,0xc4,0x42,0x98,0xfc,0x1c,0x14,0x9a,0xfb,0xf4,0xc8,0x99,0x6f,0xb9,0x24,
     0x27,0xae,0x41,0xe4,0x64,0x9b,0x93,0x4c,0xa4,0x95,0x99,0x1b,0x78,0x52,0xb8,0x55] := by
  decide

set_option maxRecDepth 10000 in
example : sha256 (strBytes "abc") =
    [0xba,0x78,0x16,0xbf,0x8f,0x01,0xcf,0xea,0x41,0x41,0x40,0xde,0x5d,0xae,0x22,0x23,
     0xb0,0x03,0x61,0xa3,0x96,0x17,0x7a,0x9c,0xb4,0x10,0xff,0x61,0xf2,0x00,0x15,0xad] := by
  decide

set_option maxRecDepth 20000 in
example : hexEncode (hmacSHA256 (strBytes "Jefe") (strBytes "what do ya want for nothing?")) =
    strBytes "5bdcc146bf60754e6a042426089575c75a003f089d2739839dec58b964ec3843" := by
  decide

/-- The expected signature always begins with `v0=`, so it is never
empty. -/
theorem computeSlackSignature_ne_nil (signingSecret timestamp body : Bytes) :
    computeSlackSignature signingSecret timestamp body ≠ [] := by
  unfold computeSlackSignature
  intro hcontra
  have hv0 : strBytes "v0=" ≠ [] := by decide
  exact hv0 (List.append_eq_nil.mp hcontra).1

/-- C3 counterexample: with an empty timestamp header the check rejects
even a faithful recomputation of the signature over the same
(signing secret, timestamp, body) triple, so the claim's universal
acceptance of recomputations fails. -/
theorem slack_verify_rejects_empty_timestamp :
    verifySlackSignature [] (computeSlackSignature (strBytes "secret") [] (strBytes "body"))
      (strBytes "body") (strBytes "secret") = false := by
  rfl

/-- C3 (amended): for every triple with a non-empty timestamp, the check
accepts the recomputed HMAC-SHA256 signature over `v0:{timestamp}:{body}`,
and accepts a supplied signature exactly when it equals that
recomputation — so any supplied signature whose value differs (in
particular one recomputed after a mutation of secret, timestamp or body
that changes the MAC) is rejected. -/
theorem slack_verify_accepts_exactly_recomputation
    (signingSecret timestamp body sig : Bytes) (hts : timestamp ≠ []) :
    verifySlackSignature timestamp
        (computeSlackSignature signingSecret timestamp body) body signingSecret = true ∧
      (verifySlackSignature timestamp sig body signingSecret = true ↔
        sig = computeSlackSignature signingSecret timestamp body) := by
  have hts' : timestamp.isEmpty = false := by
    cases timestamp with
    | nil => exact absurd rfl hts
    | cons a l => rfl
  have hexp := computeSlackSignature_ne_nil signingSecret timestamp body
  have hv : ∀ s : Bytes, verifySlackSignature timestamp s body signingSecret
      = (computeSlackSignature signingSecret timestamp body == s) := by
    intro s
    unfold verifySlackSignature
    rw [hts']
    cases hs : s.isEmpty with
    | true =>
      have hnil : s = [] := List.isEmpty_iff.mp hs
      subst hnil
      simp only [Bool.false_or, if_pos rfl]
      exact (beq_eq_false_iff_ne.mpr hexp).symm
    | false => simp
  refine ⟨?_, ?_⟩
  · rw [hv]
    exact beq_self_eq_true _
  · rw [hv, beq_iff_eq]
    exact eq_comm

/-- Witness for `slack_verify_accepts_exactly_recomputation` at a
concrete triple. -/
theorem slack_verify_accepts_exactly_recomputation_witness :
    verifySlackSignature (strBytes "1700000000")
        (computeSlackSignature (strBytes "secret") (strBytes "1700000000") (strBytes "{}"))
        (strBytes "{}") (strBytes "secret") = true ∧
      (verifySlackSignature (strBytes "1700000000") (strBytes "v0=bogus")
          (strBytes "{}") (strBytes "secret") = true ↔
        strBytes "v0=bogus" =
          computeSlackSignature (strBytes "secret") (strBytes "1700000000") (strBytes "{}")) :=
  slack_verify_accepts_exactly_recomputation (strBytes "secret") (strBytes "1700000000")
    (strBytes "{}") (strBytes "v0=bogus") (by decide)

set_option maxRecDepth 20000 in
/-- Concrete demonstration: a signature recomputed after a single-byte
mutation of the secret is rejected. -/
theorem slack_verify_rejects_mutated_secret_example :
    verifySlackSignature (strBytes "123")
      (computeSlackSignature (strBytes "sedret") (strBytes "123") (strBytes "body"))
      (strBytes "body") (strBytes "secret") = false := by
  decide

set_option maxRecDepth 20000 in
/-- Concrete demonstration: a signature recomputed after a single-byte
mutation of the body is rejected. -/
theorem slack_verify_rejects_mutated_body_example :
    verifySlackSignature (strBytes "123")
      (computeSlackSignature (strBytes "secret") (strBytes "123") (strBytes "bodz"))
      (strBytes "body") (strBytes "secret") = false := by
  decide

/-- C4 counterexample: a GitLab webhook POST with the correct secret
token, a `Note Hook` event type and a non-empty but unparseable body is
answered with 422 (unprocessable), not 400 — malformed JSON yields 400
only on the Slack and Telegram handlers. -/
theorem gitlab_malformed_json_yields_422 :
    (gitlabBuildHandler "cfg-1" "s"
      { method := "POST", tokenHeader := "s", eventTypeHeader := "Note Hook",
        body := some (strBytes "\x7bbad"), parsed := none }).status = 422 ∧
      (422 : Nat) ≠ 400 := by
  constructor
  · rfl
  · decide

/-- C4 (amended): after the authenticity check passes, a malformed
(undecodable) POST body yields 400 on the Slack and Telegram handlers;
the GitLab handler yields 400 for an unreadable or empty body, and 422
for a non-empty body that fails webhook parsing. -/
theorem malformed_body_statuses (providerCfgID secret : String)
    (cfg : List (String × ConfigVal)) :
    (∀ (req : SlackRequest) (body : Bytes), req.method = "POST" → req.body = some body →
      (getCfgString cfg "signing_secret" = "" ∨
        verifySlackSignature req.timestampHeader req.signatureHeader body
          (strBytes (getCfgString cfg "signing_secret")) = true) →
      req.parsed = none → (slackBuildHandler providerCfgID cfg req).status = 400) ∧
    (∀ req : TelegramRequest, req.method = "POST" →
      (secret = "" ∨ req.secretTokenHeader = secret) →
      req.body.isSome → req.parsed = none →
      (telegramBuildHandler providerCfgID secret req).status = 400) ∧
    (∀ (req : GitLabRequest) (body : Bytes), req.method = "POST" →
      req.tokenHeader = secret →
      (req.eventTypeHeader = "Note Hook" ∨ req.eventTypeHeader = "Confidential Note Hook") →
      req.body = some body → body ≠ [] → req.parsed = none →
      (gitlabBuildHandler providerCfgID secret req).status = 422) ∧
    (∀ req : GitLabRequest, req.method = "POST" → req.tokenHeader = secret →
      (req.eventTypeHeader = "Note Hook" ∨ req.eventTypeHeader = "Confidential Note Hook") →
      (req.body = none ∨ req.body = some []) →
      (gitlabBuildHandler providerCfgID secret req).status = 400) := by
  refine ⟨?_, ?_, ?_, ?_⟩
  · intro req body hm hb hv hp
    rcases hv with hv | hv <;> simp [slackBuildHandler, hm, hb, hp, hv]
  · intro req hm hv hb hp
    rcases hb' : req.body with _ | b
    · rw [hb'] at hb; exact absurd hb (by simp)
    · rcases hv with hv | hv <;> simp [telegramBuildHandler, hm, hb', hp, hv]
  · intro req body hm ht he hb hbody hp
    rcases he with he | he <;>
      simp [gitlabBuildHandler, hm, ht, he, hb, hp, List.isEmpty_iff, hbody]
  · intro req hm ht he hb
    rcases he with he | he <;> rcases hb with hb | hb <;>
      simp [gitlabBuildHandler, hm, ht, he, hb]

/-- Witness for `malformed_body_statuses` at concrete requests. -/
theorem malformed_body_statuses_witness :
    (slackBuildHandler "cfg-1" []
      { method := "POST", timestampHeader := [], signatureHeader := [],
        body := some (strBytes "\x7bbad"), parsed := none }).status = 400 ∧
    (telegramBuildHandler "cfg-1" ""
      { method := "POST", secretTokenHeader := "",
        body := some (strBytes "\x7bbad"), parsed := none }).status = 400 ∧
    (gitlabBuildHandler "cfg-1" ""
      { method := "POST", tokenHeader := "", eventTypeHeader := "Note Hook",
        body := some (strBytes "\x7bbad"), parsed := none }).status = 422 ∧
    (gitlabBuildHandler "cfg-1" ""
      { method := "POST", tokenHeader := "", eventTypeHeader := "Note Hook",
        body := some [], parsed := none }).status = 400 := by
  obtain ⟨h1, h2, h3, h4⟩ := malformed_body_statuses "cfg-1" "" ([] : List (String × ConfigVal))
  exact ⟨h1 _ (strBytes "\x7bbad") rfl rfl (Or.inl rfl) rfl,
    h2 _ rfl (Or.inl rfl) (by decide) rfl,
    h3 _ (strBytes "\x7bbad") rfl rfl (Or.inl rfl) rfl (by decide) rfl,
    h4 _ rfl rfl (Or.inl rfl) (Or.inr rfl)⟩

/-- C7: a Slack POST whose signature check passes (or is skipped for an
unconfigured secret) and whose payload has type `url_verification` is
answered with status 200 and the payload's challenge echoed as the
response body, and `onMessage` is never invoked. -/
theorem slack_url_verification_echoes_challenge (providerCfgID : String)
    (cfg : List (String × ConfigVal)) (req : SlackRequest) (body : Bytes)
    (evt : SlackEvent) (hm : req.method = "POST") (hb : req.body = some body)
    (hv : getCfgString cfg "signing_secret" = "" ∨
      verifySlackSignature req.timestampHeader req.signatureHeader body
        (strBytes (getCfgString cfg "signing_secret")) = true)
    (hp : req.parsed = some evt) (ht : evt.type = "url_verification") :
    slackBuildHandler providerCfgID cfg req = ⟨200, some evt.challenge, []⟩ := by
  rcases hv with hv | hv <;> simp [slackBuildHandler, hm, hb, hp, ht, hv]

/-- Witness for `slack_url_verification_echoes_challenge` at the
spec's example payload. -/
theorem slack_url_verification_echoes_challenge_witness :
    slackBuildHandler "cfg-1" []
      { method := "POST", timestampHeader := [], signatureHeader := [],
        body := some (strBytes "\x7b\x7d"),
        parsed := some { challenge := "abc123", type := "url_verification",
                         event := { type := "", text := "", user := "", channel := "",
                                    ts := "", threadTS := "" } } } =
      ⟨200, some "abc123", []⟩ :=
  slack_url_verification_echoes_challenge "cfg-1" [] _ (strBytes "\x7b\x7d") _ rfl rfl
    (Or.inl rfl) rfl rfl

/-- C8: a GitLab payload parsed as a system comment never reaches
`onMessage`, whatever the rest of the request looks like; a non-system
comment payload with the matching secret token is dispatched with the
extracted normalized message. -/
theorem gitlab_system_comment_filtering (providerCfgID secret : String) :
    (∀ (req : GitLabRequest) (e : IssueCommentEvent),
      req.parsed = some (.issueComment e) → e.system = true →
      (gitlabBuildHandler providerCfgID secret req).messages = []) ∧
    (∀ (req : GitLabRequest) (e : IssueCommentEvent) (body : Bytes),
      req.method = "POST" → req.tokenHeader = secret →
      req.eventTypeHeader = "Note Hook" → req.body = some body → body ≠ [] →
      req.parsed = some (.issueComment e) → e.system = false →
      gitlabBuildHandler providerCfgID secret req =
        ⟨200, none,
         [{ provider := "gitlab", providerCfgID := providerCfgID,
            externalRef := if e.url ≠ "" then e.url
              else e.projectWebURL ++ "/-/issues/" ++ toString e.issueIID,
            title := e.issueTitle, body := e.note, author := e.username,
            replyMeta := .gitlab e.projectID e.issueIID }]⟩) := by
  constructor
  · intro req e hp hsys
    unfold gitlabBuildHandler
    repeat' split
    all_goals first
    | rfl
    | simp_all
  · intro req e body hm ht he hb hbody hp hsys
    simp [gitlabBuildHandler, hm, ht, he, hb, hp, hsys, List.isEmpty_iff, hbody]

/-- Witness for `gitlab_system_comment_filtering` at concrete
requests. -/
theorem gitlab_system_comment_filtering_witness :
    (gitlabBuildHandler "cfg-1" "s"
      { method := "POST", tokenHeader := "s", eventTypeHeader := "Note Hook",
        body := some (strBytes "\x7b\x7d"),
        parsed := some (.issueComment
          { system := true, note := "@opencode hi", url := "u", projectID := 1,
            issueIID := 2, issueTitle := "T", projectWebURL := "w",
            username := "alice" }) }).messages = [] ∧
    gitlabBuildHandler "cfg-1" "s"
      { method := "POST", tokenHeader := "s", eventTypeHeader := "Note Hook",
        body := some (strBytes "\x7b\x7d"),
        parsed := some (.issueComment
          { system := false, note := "@opencode hi", url := "u", projectID := 1,
            issueIID := 2, issueTitle := "T", projectWebURL := "w",
            username := "alice" }) } =
      ⟨200, none,
       [{ provider := "gitlab", providerCfgID := "cfg-1", externalRef := "u",
          title := "T", body := "@opencode hi", author := "alice",
          replyMeta := .gitlab 1 2 }]⟩ := by
  obtain ⟨h1, h2⟩ := gitlab_system_comment_filtering "cfg-1" "s"
  refine ⟨h1 _ _ rfl rfl, ?_⟩
  have h3 := h2
    { method := "POST", tokenHeader := "s", eventTypeHeader := "Note Hook",
      body := some (strBytes "\x7b\x7d"),
      parsed := some (.issueComment
        { system := false, note := "@opencode hi", url := "u", projectID := 1,
          issueIID := 2, issueTitle := "T", projectWebURL := "w",
          username := "alice" }) }
    { system := false, note := "@opencode hi", url := "u", projectID := 1,
      issueIID := 2, issueTitle := "T", projectWebURL := "w", username := "alice" }
    (strBytes "\x7b\x7d") rfl rfl rfl rfl (by decide) rfl rfl
  simpa using h3

/-- C9: with an empty configured secret the Telegram handler never
answers 403 (verification is skipped entirely, header or not); with a
non-empty secret, a POST whose secret-token header differs from the
secret is answered 403. -/
theorem telegram_secret_verification (providerCfgID secret : String) :
    (∀ req : TelegramRequest, (telegramBuildHandler providerCfgID "" req).status ≠ 403) ∧
    (∀ req : TelegramRequest, secret ≠ "" → req.method = "POST" →
      req.secretTokenHeader ≠ secret →
      (telegramBuildHandler providerCfgID secret req).status = 403) := by
  constructor
  · intro req
    unfold telegramBuildHandler
    repeat' split
    all_goals first
    | decide
    | simp_all
  · intro req hsec hm hh
    unfold telegramBuildHandler
    rw [if_neg (by simp [hm]), if_pos ⟨hsec, hh⟩]

/-- Witness for `telegram_secret_verification` at concrete requests. -/
theorem telegram_secret_verification_witness :
    (telegramBuildHandler "cfg-1" ""
      { method := "POST", secretTokenHeader := "", body := some [],
        parsed := some { message := none } }).status ≠ 403 ∧
    (telegramBuildHandler "cfg-1" "my-secret"
      { method := "POST", secretTokenHeader := "wrong", body := some [],
        parsed := some { message := none } }).status = 403 := by
  obtain ⟨h1, h2⟩ := telegram_secret_verification "cfg-1" "my-secret"
  exact ⟨h1 _, h2 _ (by decide) rfl (by decide)⟩

/-- C10: when the channel config's `signing_secret` is absent, not a
string, or the empty string, the Slack handler skips signature
verification entirely and never answers 403. -/
theorem slack_empty_signing_secret_skips_verification (providerCfgID : String)
    (cfg : List (String × ConfigVal)) (req : SlackRequest)
    (hs : cfg.lookup "signing_secret" = none ∨
      cfg.lookup "signing_secret" = some .other ∨
      cfg.lookup "signing_secret" = some (.str "")) :
    (slackBuildHandler providerCfgID cfg req).status ≠ 403 := by
  have hss : getCfgString cfg "signing_secret" = "" := by
    unfold getCfgString
    rcases hs with h | h | h <;> rw [h]
  unfold slackBuildHandler
  simp only [hss]
  repeat' split
  all_goals first
  | decide
  | simp_all

/-- Witness for `slack_empty_signing_secret_skips_verification`: no
secret configured, no signature headers, still not 403. -/
theorem slack_empty_signing_secret_skips_verification_witness :
    (slackBuildHandler "cfg-1" [("bot_token", .str "xoxb")]
      { method := "POST", timestampHeader := [], signatureHeader := [],
        body := some (strBytes "\x7b\x7d"), parsed := none }).status ≠ 403 :=
  slack_empty_signing_secret_skips_verification "cfg-1" [("bot_token", .str "xoxb")]
    _ (Or.inl (by decide))

/-- `concatTextParts` is the ordered concatenation of the texts of the
text-typed parts. -/
theorem concatTextParts_eq_join (parts : List MessagePart) :
    concatTextParts parts =
      joinList ((parts.filter (fun p => p.type == "text")).map MessagePart.text) := by
  have aux : ∀ (ps : List MessagePart) (acc : String),
      ps.foldl (fun result part => if part.type = "text" then result ++ part.text else result) acc
        = acc ++ joinList ((ps.filter (fun p => p.type == "text")).map MessagePart.text) := by
    intro ps
    induction ps with
    | nil => intro acc; simp [joinList]
    | cons p rest ih =>
      intro acc
      by_cases hp : p.type = "text"
      · simp [hp, List.filter_cons, joinList, ih, String.append_assoc]
      · simp [hp, List.filter_cons, ih]
  simpa [concatTextParts] using aux parts ""

/-- C6: `SendMessage` response handling: a non-200 status is an error;
a structured error object inside a 200 envelope is an error even though
the HTTP status is 200; otherwise the result is the concatenation of
the texts of the text-typed parts, and an empty concatenation is an
error. -/
theorem send_message_response_cases (status : Nat) (decoded : Option MessageResponse)
    (r : MessageResponse) :
    (status ≠ 200 → ∃ e, sendMessageResult status decoded = .error e) ∧
    (∀ einfo, r.info.error = some einfo →
      ∃ e, sendMessageResult 200 (some r) = .error e) ∧
    (r.info.error = none →
      sendMessageResult 200 (some r) =
        if joinList ((r.parts.filter (fun p => p.type == "text")).map MessagePart.text) = ""
        then .error "opencode returned empty response"
        else .ok (joinList ((r.parts.filter (fun p => p.type == "text")).map MessagePart.text))) := by
  refine ⟨?_, ?_, ?_⟩
  · intro hs
    exact ⟨"send message failed: status " ++ toString status, by
      unfold sendMessageResult
      rw [if_pos hs]⟩
  · intro einfo he
    refine ⟨"opencode error: " ++ einfo.name ++ ": " ++ einfo.message, ?_⟩
    unfold sendMessageResult
    rw [if_neg (by simp)]
    simp only [he]
  · intro he
    unfold sendMessageResult
    rw [if_neg (by simp)]
    simp only [he, concatTextParts_eq_join]

/-- Witness for `send_message_response_cases` at concrete responses. -/
theorem send_message_response_cases_witness :
    (∃ e, sendMessageResult 500 none = .error e) ∧
    (∃ e, sendMessageResult 200
      (some { info := { error := some { name := "ProviderAuthError", message := "boom" } },
              parts := [{ type := "text", text := "hi" }] }) = .error e) ∧
    sendMessageResult 200
      (some { info := {},
              parts := [{ type := "text", text := "hi" }, { type := "tool", text := "x" },
                        { type := "text", text := "!" }] }) = .ok "hi!" := by
  refine ⟨(send_message_response_cases 500 none { info := {}, parts := [] }).1 (by decide),
    (send_message_response_cases 200 none
      { info := { error := some { name := "ProviderAuthError", message := "boom" } },
        parts := [{ type := "text", text := "hi" }] }).2.1
      { name := "ProviderAuthError", message := "boom" } rfl, ?_⟩
  have hc := (send_message_response_cases 200 none
    { info := {},
      parts := [{ type := "text", text := "hi" }, { type := "tool", text := "x" },
                { type := "text", text := "!" }] }).2.2 rfl
  rw [hc]
  rfl

/-- C5: after a successful `CreateSession`, `runOpencodeHTTP` performs
exactly one `DeleteSession`, on that session's id, on a fresh
background context with a 10-second timeout, whether `SendMessage`
succeeds or fails; the deletion outcome never influences the run
(cleanup failure is only logged); and the returned result is determined
by the `SendMessage` outcome alone. -/
theorem run_opencode_delete_exactly_once (env : OpencodeEnv) (title prompt : String)
    (session : Session) (hc : env.createResult = .ok session) :
    (runOpencodeHTTP env title prompt).2.filter isDeleteCall =
        [.deleteSession (.backgroundTimeout 10) session.id] ∧
    (∀ d : Except String Unit,
      runOpencodeHTTP { env with deleteResult := d } title prompt =
        runOpencodeHTTP env title prompt) ∧
    (runOpencodeHTTP env title prompt).1 =
      (match env.sendResult with
       | .error e => .error ("send message: " ++ e)
       | .ok result => .ok result) := by
  obtain ⟨cr, sr, dr⟩ := env
  simp only at hc
  subst hc
  refine ⟨?_, ?_, ?_⟩ <;> cases sr <;> simp [runOpencodeHTTP, isDeleteCall]

/-- `runOpencodeHTTP` never calls `DeleteSession` when `CreateSession`
failed. -/
theorem run_opencode_no_delete_without_create (env : OpencodeEnv) (title prompt : String)
    (e : String) (hc : env.createResult = .error e) :
    (runOpencodeHTTP env title prompt).2.filter isDeleteCall = [] := by
  obtain ⟨cr, sr, dr⟩ := env
  simp only at hc
  subst hc
  simp [runOpencodeHTTP, isDeleteCall]

/-- Witness for `run_opencode_delete_exactly_once` with a failing
`SendMessage` and failing `DeleteSession`. -/
theorem run_opencode_delete_exactly_once_witness :
    ((runOpencodeHTTP
        { createResult := .ok { id := "sess-1", title := "Analysis" },
          sendResult := .error "timeout", deleteResult := .error "cleanup failed" }
        "Analysis" "prompt").2.filter isDeleteCall =
      [.deleteSession (.backgroundTimeout 10) "sess-1"]) ∧
    ((runOpencodeHTTP
        { createResult := .ok { id := "sess-1", title := "Analysis" },
          sendResult := .error "timeout", deleteResult := .error "cleanup failed" }
        "Analysis" "prompt").1 = .error "send message: timeout") := by
  obtain ⟨h1, _h2, h3⟩ := run_opencode_delete_exactly_once
    { createResult := .ok { id := "sess-1", title := "Analysis" },
      sendResult := .error "timeout", deleteResult := .error "cleanup failed" }
    "Analysis" "prompt" { id := "sess-1", title := "Analysis" } rfl
  refine ⟨h1, ?_⟩
  rw [h3]
  rfl


/-- Witness for `run_opencode_no_delete_without_create`. -/
theorem run_opencode_no_delete_without_create_witness :
    (runOpencodeHTTP
        { createResult := .error "refused", sendResult := .ok "r",
          deleteResult := .ok () }
        "Analysis" "prompt").2.filter isDeleteCall = [] :=
  run_opencode_no_delete_without_create
    { createResult := .error "refused", sendResult := .ok "r", deleteResult := .ok () }
    "Analysis" "prompt" "refused" rfl

/-- C1 counterexample: when the message matches a keyword but the
provider is not registered, `HandleMessage` creates the task and then
aborts: the task's status sequence is just `pending`, which is neither
of the two sequences the claim allows. -/
theorem handle_message_stuck_pending_counterexample :
    (handleMessage stuckEnv stuckMsg).any isTaskCreated = true ∧
    taskStatusSeq (handleMessage stuckEnv stuckMsg) = [.pending] ∧
    [TaskStatus.pending] ≠ [.pending, .processing, .completed] ∧
    [TaskStatus.pending] ≠ [.pending, .processing, .failed] := by
  refine ⟨rfl, rfl, by decide, by decide⟩

/-- Case analysis of the status trace of one `HandleMessage` run. -/
theorem taskStatusSeq_handleMessage (env : AnalyzerEnv) (msg : IncomingMessage) :
    taskStatusSeq (handleMessage env msg) = [] ∨
    (env.registryHas = false ∧ taskStatusSeq (handleMessage env msg) = [.pending]) ∨
    taskStatusSeq (handleMessage env msg) = [.pending, .processing, .completed] ∨
    taskStatusSeq (handleMessage env msg) = [.pending, .processing, .failed] := by
  rcases hpc : env.providerConfig with _ | pcfg
  · left; simp [handleMessage, hpc, taskStatusSeq]
  rcases hkw : env.keywords with _ | kws
  · left; simp [handleMessage, hpc, hkw, taskStatusSeq]
  by_cases hmk : (matchKeyword msg.body kws).1 = ""
  · left; simp [handleMessage, hpc, hkw, hmk, taskStatusSeq]
  rcases hct : env.createTaskID with _ | tid
  · left; simp [handleMessage, hpc, hkw, hmk, hct, taskStatusSeq]
  by_cases hreg : env.registryHas = false
  · refine Or.inr (Or.inl ⟨hreg, ?_⟩)
    simp [handleMessage, hpc, hkw, hmk, hct, hreg, taskStatusSeq]
  rcases har : env.analyzeResult with e | r
  · refine Or.inr (Or.inr (Or.inr ?_))
    simp [handleMessage, hpc, hkw, hmk, hct, hreg, har, taskStatusSeq]
  · refine Or.inr (Or.inr (Or.inl ?_))
    simp [handleMessage, hpc, hkw, hmk, hct, hreg, har, taskStatusSeq]

/-- C1 (amended): every run of `HandleMessage` produces one of four
task status sequences: nothing, `pending` alone (task created, then
aborted because the provider is unregistered), `pending, processing,
completed`, or `pending, processing, failed`; and when the keyword
match is empty the run performs nothing at all — in particular no task
is ever created. -/
theorem handle_message_lifecycle (env : AnalyzerEnv) (msg : IncomingMessage) :
    (taskStatusSeq (handleMessage env msg) = [] ∨
     taskStatusSeq (handleMessage env msg) = [.pending] ∨
     taskStatusSeq (handleMessage env msg) = [.pending, .processing, .completed] ∨
     taskStatusSeq (handleMessage env msg) = [.pending, .processing, .failed]) ∧
    (taskStatusSeq (handleMessage env msg) = [.pending] → env.registryHas = false) ∧
    (∀ keywords, env.keywords = some keywords →
      (matchKeyword msg.body keywords).1 = "" → handleMessage env msg = []) := by
  refine ⟨?_, ?_, ?_⟩
  · rcases taskStatusSeq_handleMessage env msg with h | ⟨_, h⟩ | h | h
    · exact Or.inl h
    · exact Or.inr (Or.inl h)
    · exact Or.inr (Or.inr (Or.inl h))
    · exact Or.inr (Or.inr (Or.inr h))
  · intro hseq
    rcases taskStatusSeq_handleMessage env msg with h | ⟨hreg, _⟩ | h | h
    · rw [h] at hseq; cases hseq
    · exact hreg
    · rw [h] at hseq; simp at hseq
    · rw [h] at hseq; simp at hseq
  · intro keywords hk hmatch
    rcases hpc : env.providerConfig with _ | pcfg
    · simp [handleMessage, hpc]
    · simp [handleMessage, hpc, hk, hmatch]

/-- Witness for `handle_message_lifecycle` at a fully-succeeding
environment and a non-matching message. -/
theorem handle_message_lifecycle_witness :
    (taskStatusSeq (handleMessage stuckEnv stuckMsg) = [] ∨
     taskStatusSeq (handleMessage stuckEnv stuckMsg) = [.pending] ∨
     taskStatusSeq (handleMessage stuckEnv stuckMsg) = [.pending, .processing, .completed] ∨
     taskStatusSeq (handleMessage stuckEnv stuckMsg) = [.pending, .processing, .failed]) ∧
    stuckEnv.registryHas = false ∧
    handleMessage stuckEnv { stuckMsg with body := "no trigger here" } = [] := by
  obtain ⟨h1, h2, h3⟩ := handle_message_lifecycle stuckEnv stuckMsg
  refine ⟨h1, h2 rfl, ?_⟩
  exact (handle_message_lifecycle stuckEnv { stuckMsg with body := "no trigger here" }).2.2
    [{ mode := "ask", keyword := "@opencode" }] rfl (by decide)
